import Mathlib

/-!
Verification of the wildfire-detection reflex agent
(`src/agents/wildfire_detection/wildfire_agent/agent.py`).

Shallow embedding conventions:
* Python floats are modelled as exact rationals (`ℚ`).
* Python values that may be `None` are modelled as `Option`.
* A rule predicate that may raise an exception is modelled as a function
  returning `Except Unit (Option String)`; `.error ()` is a raised exception.
* `datetime` values are modelled as rational time coordinates measured in
  hours; `datetime.fromisoformat` is an abstract parameter
  `parseIso : String → Option ℚ` (`none` = parse failure).
* Log output is modelled where a claim is about it: `validateLog` returns the
  list of emitted log messages (one fixed identifying string per check)
  alongside the boolean result.
-/

namespace Wildfire

/-- Python `pat in s` on lists of characters: `startsWithChars pat s` is true
when `pat` is a prefix of `s` (helper for substring search). -/
def startsWithChars : List Char → List Char → Bool
  | [], _ => true
  | _ :: _, [] => false
  | c :: cs, d :: ds => c = d && startsWithChars cs ds

/-- `hasSubstr pat s`: `pat` occurs as a contiguous substring of `s`. -/
def hasSubstr (pat : List Char) : List Char → Bool
  | [] => pat.isEmpty
  | c :: cs => startsWithChars pat (c :: cs) || hasSubstr pat cs

/-- Python `msg.upper()` at character level (the character list of
`String.toUpper msg`). -/
def pyUpper (msg : String) : List Char :=
  msg.data.map Char.toUpper

/-- Python `kw in msg.upper()`: case-insensitive containment of the (uppercase)
keyword `kw` in `msg`, as in `RuleEngine.evaluate`. -/
def containsKw (kw msg : String) : Bool :=
  hasSubstr kw.data (pyUpper msg)

/-- `EnvironmentalPercepts` dataclass (agent.py lines 27-39).  Every field of
the Python dataclass can dynamically hold `None`, which `validate` checks for,
so each field is an `Option`.  `timestamp` is a time coordinate in hours. -/
structure EnvironmentalPercepts where
  thermal : Option ℚ
  humidity : Option ℚ
  wind_speed : Option ℚ
  landuse : Option String
  vegetation_density : Option ℚ
  asset_proximity : Option ℚ
  timestamp : Option ℚ
  latitude : Option ℚ
  longitude : Option ℚ
deriving DecidableEq

/-- `WildfireDecision` dataclass (agent.py lines 42-50). -/
structure WildfireDecision where
  risk_level : String
  alert_message : Option String
  confidence : ℚ
  triggered_rules : List String
  timestamp : ℚ
deriving DecidableEq

/-- Python `x > c` where `x : Optional[float]`: comparing `None` with a number
raises `TypeError`, modelled as `.error ()`. -/
def pyGt (x : Option ℚ) (c : ℚ) : Except Unit Bool :=
  match x with
  | none => .error ()
  | some v => .ok (decide (v > c))

/-- Python `x < c` where `x : Optional[float]`: comparing `None` with a number
raises `TypeError`, modelled as `.error ()`. -/
def pyLt (x : Option ℚ) (c : ℚ) : Except Unit Bool :=
  match x with
  | none => .error ()
  | some v => .ok (decide (v < c))

/-- A registered rule: the engine's `rules` list entry together with its
`rule_names` entry (agent.py lines 56-68 keep these in a list and a dict whose
lookup always succeeds for registered rules; we pair them directly). -/
structure NamedRule where
  name : String
  pred : EnvironmentalPercepts → Except Unit (Option String)

/-- `RuleEngine` (agent.py line 53): the ordered rule collection with names. -/
structure RuleEngine where
  rules : List NamedRule

/-- `risk_priority` dict of `RuleEngine.evaluate` (agent.py line 77). -/
def riskPriority : String → Nat
  | "MEDIUM" => 1
  | "HIGH" => 2
  | "CRITICAL" => 3
  | _ => 0

/-- The risk-update step of `RuleEngine.evaluate` (agent.py lines 87-95): given
the current `max_risk_level` and one triggered message, the new
`max_risk_level`. -/
def updateRisk (cur : String) (result : String) : String :=
  if containsKw "CRITICAL" result then "CRITICAL"
  else if containsKw "HIGH" result && decide (riskPriority cur < 2) then "HIGH"
  else if containsKw "MEDIUM" result && decide (riskPriority cur < 1) then "MEDIUM"
  else cur

/-- The `for rule in self.rules` loop of `RuleEngine.evaluate` (agent.py lines
79-97), threading the accumulator `(triggered_rules, alerts, max_risk_level)`.
A raised exception (`.error`) is logged and the rule skipped; a returned
message is recorded only when truthy (non-`None` and non-empty, Python
`if result:`). -/
def evalLoop (p : EnvironmentalPercepts) :
    List NamedRule → List String × List String × String →
    List String × List String × String
  | [], acc => acc
  | r :: rs, (trig, alerts, risk) =>
    match r.pred p with
    | .error _ => evalLoop p rs (trig, alerts, risk)
    | .ok none => evalLoop p rs (trig, alerts, risk)
    | .ok (some result) =>
      if result = "" then evalLoop p rs (trig, alerts, risk)
      else evalLoop p rs
        (trig ++ [r.name], alerts ++ [result], updateRisk risk result)

/-- `RuleEngine.evaluate` (agent.py lines 70-110).  `now` is the wall-clock
time stamped on the decision (`datetime.now()`). -/
def RuleEngine.evaluate (e : RuleEngine) (p : EnvironmentalPercepts) (now : ℚ) :
    WildfireDecision :=
  let res := evalLoop p e.rules ([], [], "LOW")
  let triggered_rules := res.1
  let alerts := res.2.1
  let max_risk_level := res.2.2
  let confidence : ℚ :=
    if triggered_rules ≠ [] then min (triggered_rules.length * mkRat 3 10) 1
    else 0
  let alert_message :=
    if alerts ≠ [] then some (String.intercalate "; " alerts) else none
  { risk_level := max_risk_level
    alert_message := alert_message
    confidence := confidence
    triggered_rules := triggered_rules
    timestamp := now }

/-- `RuleEngine.evaluate` seen as a state transformer on the engine: the method
body only reads `self.rules` and `self.rule_names` (here fused in `rules`) and
assigns only local variables, so the embedding returns the engine unchanged
next to the decision. -/
def RuleEngine.evaluateS (e : RuleEngine) (p : EnvironmentalPercepts)
    (now : ℚ) : RuleEngine × WildfireDecision :=
  (⟨e.rules⟩, e.evaluate p now)

/-! ### Default rules (`SimpleReflexAgent._setup_default_rules`, lines 128-173)

Each predicate mirrors Python short-circuit `and` evaluation: a comparison on a
`None` field raises, but only if the comparisons before it in the chain
succeeded and were true.  Equality/membership tests on `landuse` never raise
(`None == "forest"` is just `False` in Python). -/

/-- `high_temperature_forest_rule` (lines 131-141), closed over
`thermal_threshold` and `humidity_threshold`. -/
def high_temperature_forest_rule (tThr hThr : ℚ)
    (p : EnvironmentalPercepts) : Except Unit (Option String) := do
  let b1 ← pyGt p.thermal tThr
  if !b1 then return none
  if !(p.landuse == some "forest") then return none
  let b3 ← pyLt p.humidity hThr
  if !b3 then return none
  return some "🔥 CRITICAL wildfire risk: High temperature in forest with low humidity"

/-- `extreme_weather_rule` (lines 143-151), closed over `wind_threshold`. -/
def extreme_weather_rule (wThr : ℚ)
    (p : EnvironmentalPercepts) : Except Unit (Option String) := do
  let b1 ← pyGt p.wind_speed wThr
  if !b1 then return none
  let b2 ← pyLt p.humidity 20
  if !b2 then return none
  let b3 ← pyGt p.thermal 315
  if !b3 then return none
  return some "⚠️ HIGH wildfire risk: Extreme weather conditions"

/-- `vegetation_thermal_rule` (lines 153-163). -/
def vegetation_thermal_rule
    (p : EnvironmentalPercepts) : Except Unit (Option String) := do
  let b1 ← pyGt p.vegetation_density (mkRat 6 10)
  if !b1 then return none
  let b2 ← pyGt p.thermal 325
  if !b2 then return none
  let b3 ← pyLt p.humidity 40
  if !b3 then return none
  return some "🌲 HIGH wildfire risk: Dense vegetation with elevated temperature"

/-- `asset_proximity_rule` (lines 165-173). -/
def asset_proximity_rule
    (p : EnvironmentalPercepts) : Except Unit (Option String) := do
  let b1 ← pyLt p.asset_proximity 5
  if !b1 then return none
  let b2 ← pyGt p.thermal 315
  if !b2 then return none
  if !(p.landuse == some "forest" || p.landuse == some "grassland") then
    return none
  return some "🏘️ MEDIUM wildfire risk: Potential threat to nearby assets"

/-- The default rule registrations, in registration order, closed over the
configured thresholds (defaults `THERMAL_THRESHOLD=330`,
`HUMIDITY_THRESHOLD=30`, `WIND_SPEED_THRESHOLD=15`). -/
def defaultRules (tThr hThr wThr : ℚ) : List NamedRule :=
  [ ⟨"high_temperature_forest", high_temperature_forest_rule tThr hThr⟩,
    ⟨"extreme_weather", extreme_weather_rule wThr⟩,
    ⟨"vegetation_thermal", vegetation_thermal_rule⟩,
    ⟨"asset_proximity", asset_proximity_rule⟩ ]

/-- The rule engine of a `SimpleReflexAgent` built with the default
environment-variable thresholds (330, 30, 15). -/
def defaultEngine : RuleEngine :=
  ⟨defaultRules 330 30 15⟩

/-! ### Validation Guardrail (`SimpleReflexAgent.validate`, lines 263-315) -/

/-- `SimpleReflexAgent.validate`, additionally returning the list of emitted
`logger.error` messages (each message abbreviated to a fixed identifying
string; the Python messages interpolate the offending value).  The method
checks eight fields for `None` (not `timestamp`), then each range in order,
returning `False` at the first violation. -/
def validateLog (p : EnvironmentalPercepts) : Bool × List String :=
  match p.thermal, p.humidity, p.wind_speed, p.vegetation_density,
      p.asset_proximity, p.landuse, p.latitude, p.longitude with
  | some thermal, some humidity, some wind_speed, some vegetation_density,
      some asset_proximity, some landuse, some latitude, some longitude =>
    if thermal < 200 ∨ thermal > 400 then
      (false, ["Unrealistic thermal temperature"])
    else if humidity < 0 ∨ humidity > 100 then
      (false, ["Invalid humidity"])
    else if wind_speed < 0 ∨ wind_speed > 200 then
      (false, ["Invalid wind speed"])
    else if vegetation_density < 0 ∨ vegetation_density > 1 then
      (false, ["Invalid vegetation density"])
    else if asset_proximity < 0 then
      (false, ["Invalid asset proximity"])
    else if latitude < -90 ∨ latitude > 90 then
      (false, ["Invalid latitude"])
    else if longitude < -180 ∨ longitude > 180 then
      (false, ["Invalid longitude"])
    else if ¬ (landuse = "urban" ∨ landuse = "forest" ∨ landuse = "grassland")
    then
      (false, ["Invalid landuse"])
    else
      (true, [])
  | _, _, _, _, _, _, _, _ => (false, ["Missing required percepts"])

/-- `SimpleReflexAgent.validate`: the boolean result alone. -/
def validate (p : EnvironmentalPercepts) : Bool :=
  (validateLog p).1

/-! ### Temporal Thermal Fusion (`SimpleReflexAgent.perceive`, lines 195-229) -/

/-- The nearby-hotspot dict returned by `get_thermal_activity_nearby`:
`confidence`, the raw `acquisition` string (absent or empty string are both
falsy for `thermal_nearby.get("acquisition")`), and the provider-computed
`hours_since_detected` (read only by the stale-logging branches). -/
structure ThermalActivityRecord where
  confidence : ℚ
  acquisition : Option String
  hours_since_detected : Option ℚ

/-- Python truthiness of `thermal_nearby.get("acquisition")`: present and
non-empty. -/
def acquisitionTruthy : Option String → Bool
  | none => false
  | some s => !(s = "")

/-- The thermal-fusion segment of `SimpleReflexAgent.perceive` (lines
195-229): starting from the baseline reading `thermal`, override it with the
configured `thermal_threshold` exactly when the nearby record is confident,
has a parseable acquisition time, and is fresh.  `parseIso` abstracts
`datetime.fromisoformat` (`none` = `ValueError`/`TypeError`), `now` is
`datetime.now(UTC)` and times are in hours. -/
def fuseThermal (parseIso : String → Option ℚ) (baseline : ℚ)
    (rec? : Option ThermalActivityRecord) (now maxAge tThr : ℚ) : ℚ :=
  match rec? with
  | none => baseline
  | some r =>
    if r.confidence > mkRat 1 2 ∧ acquisitionTruthy r.acquisition then
      let acquisition_time : Option ℚ :=
        match r.acquisition with
        | some s => parseIso s
        | none => none
      match acquisition_time with
      | some t => if now - t ≤ maxAge then tThr else baseline
      | none => baseline
    else baseline

/-! ### Orchestrator (`SimpleReflexAgent.run`, lines 335-353)

`perceive` assembles percepts from the external data provider; the claims
about `run` are conditional on the percepts it produced, so the embedding
takes the assembled percepts as input.  The returned trace records which
pipeline stages executed. -/

/-- `SimpleReflexAgent.run` after `perceive`: validate, then either abort with
no decision or decide and act.  The second component lists the stages that
ran, in order. -/
def runTrace (e : RuleEngine) (p : EnvironmentalPercepts) (now : ℚ) :
    Option WildfireDecision × List String :=
  if validate p then
    let decision := e.evaluate p now
    (some decision, ["perceive", "validate", "decide", "act"])
  else
    (none, ["perceive", "validate"])

/-! ### Spec-side definitions (for refinement statements only) -/

/-- Modelled from the spec: the risk level as the claim states it — CRITICAL
if any triggered message contains "CRITICAL" (case-insensitive), otherwise
HIGH, otherwise MEDIUM, otherwise LOW.  Used only to compare against the
code's incremental `max_risk_level` computation. -/
def riskSpec (msgs : List String) : String :=
  if msgs.any (containsKw "CRITICAL") then "CRITICAL"
  else if msgs.any (containsKw "HIGH") then "HIGH"
  else if msgs.any (containsKw "MEDIUM") then "MEDIUM"
  else "LOW"

/-- An optional reading is present and inside `[lo, hi]`. -/
def inRange (x : Option ℚ) (lo hi : ℚ) : Prop :=
  ∃ v, x = some v ∧ lo ≤ v ∧ v ≤ hi

/-- Modelled from the spec: all presence and range checks of the Guardrail
satisfied (the checks `validate` actually performs; `timestamp` has no
presence check in the code).  Used to characterise `validate`'s boolean. -/
def checksPass (p : EnvironmentalPercepts) : Prop :=
  inRange p.thermal 200 400 ∧
  inRange p.humidity 0 100 ∧
  inRange p.wind_speed 0 200 ∧
  inRange p.vegetation_density 0 1 ∧
  (∃ v, p.asset_proximity = some v ∧ 0 ≤ v) ∧
  inRange p.latitude (-90) 90 ∧
  inRange p.longitude (-180) 180 ∧
  (p.landuse = some "urban" ∨ p.landuse = some "forest" ∨
    p.landuse = some "grassland")

/-- A decision is well formed: a legal ordinal risk level, a confidence in
[0,1], and the no-rule-fired outcome is exactly (LOW, no alert, 0.0). -/
def wellFormed (d : WildfireDecision) : Prop :=
  (d.risk_level = "LOW" ∨ d.risk_level = "MEDIUM" ∨ d.risk_level = "HIGH" ∨
    d.risk_level = "CRITICAL") ∧
  0 ≤ d.confidence ∧ d.confidence ≤ 1 ∧
  (d.triggered_rules = [] →
    d.risk_level = "LOW" ∧ d.alert_message = none ∧ d.confidence = 0)

/-! ### Concrete sample inputs (spec §8 scenarios and edge cases) -/

/-- Scenario B percepts (spec §8): benign urban conditions, no rule fires. -/
def perceptsCalm : EnvironmentalPercepts :=
  ⟨some 280, some 80, some 5, some "urban", some (mkRat 1 10),
    some (mkRat 1 2), some 0, some 37, some (-122)⟩

/-- Scenario A percepts (spec §8): hot, dry, windy forest near assets. -/
def perceptsHot : EnvironmentalPercepts :=
  ⟨some 340, some 10, some 30, some "forest", some (mkRat 95 100), some 1,
    some 0, some 34, some (-118)⟩

/-- Percepts violating two checks at once: thermal 500 (above 400) and
humidity -5 (below 0). -/
def perceptsTwoViolations : EnvironmentalPercepts :=
  ⟨some 500, some (-5), some 30, some "forest", some (mkRat 1 2), some 1,
    some 0, some 34, some (-118)⟩

/-- Percepts with every validated field in range but `timestamp = None`. -/
def perceptsNoTimestamp : EnvironmentalPercepts :=
  ⟨some 300, some 50, some 10, some "urban", some (mkRat 1 2), some 10, none,
    some 0, some 0⟩

/-- Percepts with a missing (`None`) thermal reading. -/
def perceptsMissingThermal : EnvironmentalPercepts :=
  ⟨none, some 50, some 10, some "urban", some (mkRat 1 2), some 10, some 0,
    some 0, some 0⟩

/-- A custom rule whose predicate raises on every input. -/
def brokenRule : NamedRule :=
  ⟨"broken_rule", fun _ => .error ()⟩

/-- A sample ISO-timestamp parser: recognises exactly one timestamp string,
mapping it to hour 1; fails (like `datetime.fromisoformat`) on everything
else, in particular on the empty string. -/
def parseIsoSample : String → Option ℚ :=
  fun s => if s = "2024-01-01T01:00:00+00:00" then some 1 else none

/-- A fresh, confident hotspot record carrying the recognised timestamp. -/
def hotspotFresh : ThermalActivityRecord :=
  ⟨mkRat 4 5, some "2024-01-01T01:00:00+00:00", some 2⟩

/-! ### Helper lemmas -/

/-- One step of the incremental `max_risk_level` update agrees with the
spec-side scan over all messages seen so far. -/
lemma riskSpec_append (msgs : List String) (m : String) :
    riskSpec (msgs ++ [m]) = updateRisk (riskSpec msgs) m := by
  cases h1 : msgs.any (containsKw "CRITICAL") <;>
    cases h2 : containsKw "CRITICAL" m <;>
    cases h3 : msgs.any (containsKw "HIGH") <;>
    cases h4 : containsKw "HIGH" m <;>
    cases h5 : msgs.any (containsKw "MEDIUM") <;>
    cases h6 : containsKw "MEDIUM" m <;>
    simp [riskSpec, updateRisk, riskPriority, h1, h2, h3, h4, h5, h6]

/-- Throughout the evaluation loop, `max_risk_level` equals the spec-side scan
of the accumulated alert messages. -/
lemma evalLoop_risk_eq (p : EnvironmentalPercepts) :
    ∀ (rs : List NamedRule) (trig alerts : List String),
      (evalLoop p rs (trig, alerts, riskSpec alerts)).2.2 =
        riskSpec (evalLoop p rs (trig, alerts, riskSpec alerts)).2.1 := by
  intro rs
  induction rs with
  | nil => intro trig alerts; rfl
  | cons r rs ih =>
    intro trig alerts
    simp only [evalLoop]
    cases hr : r.pred p with
    | error e => exact ih trig alerts
    | ok o =>
      cases o with
      | none => exact ih trig alerts
      | some result =>
        by_cases hres : result = ""
        · simp only [hres, if_pos rfl]
          exact ih trig alerts
        · simp only [if_neg hres]
          rw [← riskSpec_append]
          exact ih (trig ++ [r.name]) (alerts ++ [result])

/-- The loop only appends to `triggered_rules`. -/
lemma evalLoop_trig_mono (p : EnvironmentalPercepts) :
    ∀ (rs : List NamedRule) (trig alerts : List String) (risk x : String),
      x ∈ trig → x ∈ (evalLoop p rs (trig, alerts, risk)).1 := by
  intro rs
  induction rs with
  | nil => intro trig alerts risk x hx; exact hx
  | cons r rs ih =>
    intro trig alerts risk x hx
    simp only [evalLoop]
    cases hr : r.pred p with
    | error e => exact ih trig alerts risk x hx
    | ok o =>
      cases o with
      | none => exact ih trig alerts risk x hx
      | some result =>
        by_cases hres : result = ""
        · simp only [hres, if_pos rfl]
          exact ih trig alerts risk x hx
        · simp only [if_neg hres]
          exact ih _ _ _ x (List.mem_append_left _ hx)

/-- The loop only appends to `alerts`. -/
lemma evalLoop_alert_mono (p : EnvironmentalPercepts) :
    ∀ (rs : List NamedRule) (trig alerts : List String) (risk m : String),
      m ∈ alerts → m ∈ (evalLoop p rs (trig, alerts, risk)).2.1 := by
  intro rs
  induction rs with
  | nil => intro trig alerts risk m hm; exact hm
  | cons r rs ih =>
    intro trig alerts risk m hm
    simp only [evalLoop]
    cases hr : r.pred p with
    | error e => exact ih trig alerts risk m hm
    | ok o =>
      cases o with
      | none => exact ih trig alerts risk m hm
      | some result =>
        by_cases hres : result = ""
        · simp only [hres, if_pos rfl]
          exact ih trig alerts risk m hm
        · simp only [if_neg hres]
          exact ih _ _ _ m (List.mem_append_left _ hm)

/-- A registered rule that fires (returns a truthy message) has its name
recorded in `triggered_rules`. -/
lemma evalLoop_fires_name_mem (p : EnvironmentalPercepts) (r : NamedRule)
    (result : String) (hr : r.pred p = .ok (some result)) (hne : result ≠ "") :
    ∀ (rs : List NamedRule) (trig alerts : List String) (risk : String),
      r ∈ rs → r.name ∈ (evalLoop p rs (trig, alerts, risk)).1 := by
  intro rs
  induction rs with
  | nil => intro trig alerts risk hmem; cases hmem
  | cons r' rs ih =>
    intro trig alerts risk hmem
    rcases List.mem_cons.mp hmem with heq | htail
    · subst heq
      simp only [evalLoop, hr, if_neg hne]
      exact evalLoop_trig_mono p rs _ _ _ r.name
        (List.mem_append_right _ (List.mem_singleton.mpr rfl))
    · simp only [evalLoop]
      cases hr' : r'.pred p with
      | error e => exact ih trig alerts risk htail
      | ok o =>
        cases o with
        | none => exact ih trig alerts risk htail
        | some result' =>
          by_cases hres : result' = ""
          · simp only [hres, if_pos rfl]
            exact ih trig alerts risk htail
          · simp only [if_neg hres]
            exact ih _ _ _ htail

/-- A registered rule that fires has its message recorded in `alerts`. -/
lemma evalLoop_fires_alert_mem (p : EnvironmentalPercepts) (r : NamedRule)
    (result : String) (hr : r.pred p = .ok (some result)) (hne : result ≠ "") :
    ∀ (rs : List NamedRule) (trig alerts : List String) (risk : String),
      r ∈ rs → result ∈ (evalLoop p rs (trig, alerts, risk)).2.1 := by
  intro rs
  induction rs with
  | nil => intro trig alerts risk hmem; cases hmem
  | cons r' rs ih =>
    intro trig alerts risk hmem
    rcases List.mem_cons.mp hmem with heq | htail
    · subst heq
      simp only [evalLoop, hr, if_neg hne]
      exact evalLoop_alert_mono p rs _ _ _ result
        (List.mem_append_right _ (List.mem_singleton.mpr rfl))
    · simp only [evalLoop]
      cases hr' : r'.pred p with
      | error e => exact ih trig alerts risk htail
      | ok o =>
        cases o with
        | none => exact ih trig alerts risk htail
        | some result' =>
          by_cases hres : result' = ""
          · simp only [hres, if_pos rfl]
            exact ih trig alerts risk htail
          · simp only [if_neg hres]
            exact ih _ _ _ htail

/-- `triggered_rules` and `alerts` grow in lockstep: one message per name. -/
lemma evalLoop_length_balance (p : EnvironmentalPercepts) :
    ∀ (rs : List NamedRule) (trig alerts : List String) (risk : String),
      (evalLoop p rs (trig, alerts, risk)).1.length + alerts.length =
        (evalLoop p rs (trig, alerts, risk)).2.1.length + trig.length := by
  intro rs
  induction rs with
  | nil => intro trig alerts risk; simp only [evalLoop]; omega
  | cons r rs ih =>
    intro trig alerts risk
    simp only [evalLoop]
    cases hr : r.pred p with
    | error e => exact ih trig alerts risk
    | ok o =>
      cases o with
      | none => exact ih trig alerts risk
      | some result =>
        by_cases hres : result = ""
        · simp only [hres, if_pos rfl]
          exact ih trig alerts risk
        · simp only [if_neg hres]
          have := ih (trig ++ [r.name]) (alerts ++ [result]) (updateRisk risk result)
          simp only [List.length_append, List.length_singleton] at this ⊢
          omega

/-- The spec-side scan only produces the four legal levels. -/
lemma riskSpec_levels (msgs : List String) :
    riskSpec msgs = "LOW" ∨ riskSpec msgs = "MEDIUM" ∨
      riskSpec msgs = "HIGH" ∨ riskSpec msgs = "CRITICAL" := by
  unfold riskSpec
  split_ifs <;> simp

/-- A CRITICAL-bearing message anywhere forces the spec-side scan to CRITICAL. -/
lemma riskSpec_critical_of_mem (msgs : List String) (m : String)
    (hm : m ∈ msgs) (hc : containsKw "CRITICAL" m = true) :
    riskSpec msgs = "CRITICAL" := by
  unfold riskSpec
  have : msgs.any (containsKw "CRITICAL") = true :=
    List.any_eq_true.mpr ⟨m, hm, hc⟩
  simp [this]

/-- Projection: the decision's risk level is the loop's final
`max_risk_level`. -/
lemma evaluate_risk_level (e : RuleEngine) (p : EnvironmentalPercepts)
    (now : ℚ) :
    (e.evaluate p now).risk_level = (evalLoop p e.rules ([], [], "LOW")).2.2 :=
  rfl

/-- Projection: the decision's triggered rules are the loop's final list. -/
lemma evaluate_triggered (e : RuleEngine) (p : EnvironmentalPercepts)
    (now : ℚ) :
    (e.evaluate p now).triggered_rules =
      (evalLoop p e.rules ([], [], "LOW")).1 :=
  rfl

/-- Projection: the decision's alert message joins the loop's alerts. -/
lemma evaluate_alert (e : RuleEngine) (p : EnvironmentalPercepts) (now : ℚ) :
    (e.evaluate p now).alert_message =
      (if (evalLoop p e.rules ([], [], "LOW")).2.1 ≠ [] then
        some (String.intercalate "; " (evalLoop p e.rules ([], [], "LOW")).2.1)
      else none) :=
  rfl

/-- Projection: the decision's confidence from the loop's triggered list. -/
lemma evaluate_confidence (e : RuleEngine) (p : EnvironmentalPercepts)
    (now : ℚ) :
    (e.evaluate p now).confidence =
      (if (evalLoop p e.rules ([], [], "LOW")).1 ≠ [] then
        min (((evalLoop p e.rules ([], [], "LOW")).1.length : ℚ) * mkRat 3 10) 1
      else 0) :=
  rfl

/-- Every decision produced by `RuleEngine.evaluate` is well formed. -/
lemma evaluate_wellFormed (e : RuleEngine) (p : EnvironmentalPercepts)
    (now : ℚ) : wellFormed (e.evaluate p now) := by
  have hrisk : (evalLoop p e.rules ([], [], "LOW")).2.2 =
      riskSpec (evalLoop p e.rules ([], [], "LOW")).2.1 :=
    evalLoop_risk_eq p e.rules [] []
  refine ⟨?_, ?_, ?_, ?_⟩
  · rw [evaluate_risk_level, hrisk]
    exact riskSpec_levels _
  · rw [evaluate_confidence]
    split_ifs
    · refine le_min (mul_nonneg (Nat.cast_nonneg _) ?_) (by norm_num)
      rw [Rat.mkRat_eq_div]
      norm_num
    · norm_num
  · rw [evaluate_confidence]
    split_ifs
    · exact min_le_right _ _
    · norm_num
  · intro h
    rw [evaluate_triggered] at h
    have hlen := evalLoop_length_balance p e.rules [] [] "LOW"
    rw [h] at hlen
    simp only [List.length_nil, Nat.add_zero, Nat.zero_add] at hlen
    have halerts : (evalLoop p e.rules ([], [], "LOW")).2.1 = [] :=
      List.length_eq_zero.mp hlen.symm
    refine ⟨?_, ?_, ?_⟩
    · rw [evaluate_risk_level, hrisk, halerts]
      rfl
    · rw [evaluate_alert, halerts]
      simp
    · rw [evaluate_confidence, h]
      norm_num

/-- `validate` returns `True` exactly when every presence and range check it
performs is satisfied. -/
lemma validate_true_iff (p : EnvironmentalPercepts) :
    validate p = true ↔ checksPass p := by
  obtain ⟨t, hu, w, l, v, a, ts, la, lo⟩ := p
  rcases t with _ | thermal
  · simp [validate, validateLog, checksPass, inRange]
  rcases hu with _ | humidity
  · simp [validate, validateLog, checksPass, inRange]
  rcases w with _ | wind_speed
  · simp [validate, validateLog, checksPass, inRange]
  rcases v with _ | vegetation_density
  · simp [validate, validateLog, checksPass, inRange]
  rcases a with _ | asset_proximity
  · simp [validate, validateLog, checksPass, inRange]
  rcases l with _ | landuse
  · simp [validate, validateLog, checksPass, inRange]
  rcases la with _ | latitude
  · simp [validate, validateLog, checksPass, inRange]
  rcases lo with _ | longitude
  · simp [validate, validateLog, checksPass, inRange]
  simp only [validate, validateLog]
  split_ifs with h1 h2 h3 h4 h5 h6 h7 h8
  · simp [checksPass, inRange]
    intro hta htb
    rcases h1 with hx | hx
    · exact absurd hta (by linarith)
    · exact absurd htb (by linarith)
  · simp [checksPass, inRange]
    intro _ _ hha hhb
    rcases h2 with hx | hx
    · exact absurd hha (by linarith)
    · exact absurd hhb (by linarith)
  · simp [checksPass, inRange]
    intro _ _ _ _ hwa hwb
    rcases h3 with hx | hx
    · exact absurd hwa (by linarith)
    · exact absurd hwb (by linarith)
  · simp [checksPass, inRange]
    intro _ _ _ _ _ _ hva hvb
    rcases h4 with hx | hx
    · exact absurd hva (by linarith)
    · exact absurd hvb (by linarith)
  · simp [checksPass, inRange]
    intro _ _ _ _ _ _ _ _ haa
    exact absurd haa (by linarith)
  · simp [checksPass, inRange]
    intro _ _ _ _ _ _ _ _ _ hlaa hlab
    rcases h6 with hx | hx
    · exact absurd hlaa (by linarith)
    · exact absurd hlab (by linarith)
  · simp [checksPass, inRange]
    intro _ _ _ _ _ _ _ _ _ _ _ hloa hlob
    rcases h7 with hx | hx
    · exact absurd hloa (by linarith)
    · exact absurd hlob (by linarith)
  · push_neg at h1 h2 h3 h4 h5 h6 h7
    simp [checksPass, inRange]
    exact ⟨⟨h1.1, h1.2⟩, ⟨h2.1, h2.2⟩, ⟨h3.1, h3.2⟩, ⟨h4.1, h4.2⟩, h5,
      ⟨h6.1, h6.2⟩, ⟨h7.1, h7.2⟩, h8⟩
  · simp [checksPass, inRange]
    intro _ _ _ _ _ _ _ _ _ _ _ _ _
    exact ⟨fun h => h8 (Or.inl h), fun h => h8 (Or.inr (Or.inl h)),
      fun h => h8 (Or.inr (Or.inr h))⟩

/-- When `validate` rejects, exactly one check was logged (the first violated
one; the method returns immediately). -/
lemma validateLog_single (p : EnvironmentalPercepts) :
    (validateLog p).1 = false → (validateLog p).2.length = 1 := by
  obtain ⟨t, hu, w, l, v, a, ts, la, lo⟩ := p
  rcases t with _ | thermal
  · intro _; rfl
  rcases hu with _ | humidity
  · intro _; rfl
  rcases w with _ | wind_speed
  · intro _; rfl
  rcases v with _ | vegetation_density
  · intro _; rfl
  rcases a with _ | asset_proximity
  · intro _; rfl
  rcases l with _ | landuse
  · intro _; rfl
  rcases la with _ | latitude
  · intro _; rfl
  rcases lo with _ | longitude
  · intro _; rfl
  simp only [validateLog]
  split_ifs <;> simp

/-- A rule whose predicate raises contributes nothing to the loop. -/
lemma evalLoop_skip_error (p : EnvironmentalPercepts) (r : NamedRule)
    (hr : r.pred p = .error ()) :
    ∀ (pre post : List NamedRule) (acc : List String × List String × String),
      evalLoop p (pre ++ r :: post) acc = evalLoop p (pre ++ post) acc := by
  intro pre
  induction pre with
  | nil =>
    intro post acc
    obtain ⟨trig, alerts, risk⟩ := acc
    simp only [List.nil_append, evalLoop, hr]
  | cons r' pre ih =>
    intro post acc
    obtain ⟨trig, alerts, risk⟩ := acc
    simp only [List.cons_append, evalLoop]
    cases hr' : r'.pred p with
    | error e => exact ih post _
    | ok o =>
      cases o with
      | none => exact ih post _
      | some result =>
        by_cases hres : result = ""
        · simp only [hres, if_pos rfl]
          exact ih post _
        · simp only [if_neg hres]
          exact ih post _

/-! ### Claims -/

/-- C9: for every percept set and registered rule collection, two calls of
`evaluate` on identical percepts yield identical `risk_level`,
`triggered_rules`, `alert_message` and `confidence` — the decision is
deterministic in everything except its timestamp. -/
theorem evaluate_deterministic (e : RuleEngine) (p : EnvironmentalPercepts)
    (t₁ t₂ : ℚ) :
    (e.evaluate p t₁).risk_level = (e.evaluate p t₂).risk_level ∧
    (e.evaluate p t₁).triggered_rules = (e.evaluate p t₂).triggered_rules ∧
    (e.evaluate p t₁).alert_message = (e.evaluate p t₂).alert_message ∧
    (e.evaluate p t₁).confidence = (e.evaluate p t₂).confidence :=
  ⟨rfl, rfl, rfl, rfl⟩

/-- C10: `evaluate` never modifies the engine's state: the rule collection
(with its name mapping) is identical before and after a call, for every
percept set, including percepts on which some rule predicates raise. -/
theorem evaluate_preserves_engine (e : RuleEngine) (p : EnvironmentalPercepts)
    (now : ℚ) : (RuleEngine.evaluateS e p now).1 = e :=
  rfl

/-- C2: `evaluate` determines `risk_level` by the priority scan CRITICAL,
HIGH, MEDIUM over the triggered rules' messages (case-insensitive substring
match, `riskSpec`), so CRITICAL wins over an earlier-registered HIGH, and zero
triggered rules yields LOW. -/
theorem evaluate_risk_priority_scan (e : RuleEngine)
    (p : EnvironmentalPercepts) (now : ℚ) :
    (e.evaluate p now).risk_level =
      riskSpec (evalLoop p e.rules ([], [], "LOW")).2.1 ∧
    ((e.evaluate p now).triggered_rules = [] →
      (e.evaluate p now).risk_level = "LOW") := by
  refine ⟨?_, ?_⟩
  · rw [evaluate_risk_level]
    exact evalLoop_risk_eq p e.rules [] []
  · intro h
    exact ((evaluate_wellFormed e p now).2.2.2 h).1

/-- Witness for C2 at concrete inputs: the scan equation at the hot scenario,
and LOW with no triggered rules at the calm scenario. -/
theorem evaluate_risk_priority_scan_witness :
    (defaultEngine.evaluate perceptsHot 0).risk_level =
      riskSpec (evalLoop perceptsHot defaultEngine.rules ([], [], "LOW")).2.1 ∧
    (defaultEngine.evaluate perceptsCalm 0).risk_level = "LOW" :=
  ⟨(evaluate_risk_priority_scan defaultEngine perceptsHot 0).1,
   (evaluate_risk_priority_scan defaultEngine perceptsCalm 0).2 (by decide)⟩

/-- C5: the decision's confidence is exactly `min(0.3 × |triggered_rules|, 1)`
and in particular `0` when no rule triggers. -/
theorem evaluate_confidence_formula (e : RuleEngine)
    (p : EnvironmentalPercepts) (now : ℚ) :
    (e.evaluate p now).confidence =
      min (0.3 * ((e.evaluate p now).triggered_rules.length : ℚ)) 1 ∧
    ((e.evaluate p now).triggered_rules = [] →
      (e.evaluate p now).confidence = 0) := by
  constructor
  · rw [evaluate_confidence, evaluate_triggered]
    split_ifs with h
    · rw [mul_comm]
      norm_num
    · simp only [not_not] at h
      rw [h]
      norm_num
  · intro h
    exact ((evaluate_wellFormed e p now).2.2.2 h).2.2

/-- Witness for C5: the zero-trigger case at the calm scenario. -/
theorem evaluate_confidence_formula_witness :
    (defaultEngine.evaluate perceptsCalm 0).confidence = 0 :=
  (evaluate_confidence_formula defaultEngine perceptsCalm 0).2 (by decide)

/-- C6: a rule whose predicate raises on the given percepts is skipped in
isolation — the decision is the same as if that rule were not registered at
all (so it contributes to neither `triggered_rules`, nor alerts, nor the risk
level, and the remaining rules are evaluated in order) — and the evaluation
still returns a well-formed decision instead of propagating the exception. -/
theorem evaluate_isolates_rule_fault (pre post : List NamedRule)
    (r : NamedRule) (p : EnvironmentalPercepts) (now : ℚ)
    (hr : r.pred p = .error ()) :
    RuleEngine.evaluate ⟨pre ++ r :: post⟩ p now =
      RuleEngine.evaluate ⟨pre ++ post⟩ p now ∧
    wellFormed (RuleEngine.evaluate ⟨pre ++ r :: post⟩ p now) := by
  constructor
  · unfold RuleEngine.evaluate
    rw [show (RuleEngine.mk (pre ++ r :: post)).rules = pre ++ r :: post
          from rfl,
        show (RuleEngine.mk (pre ++ post)).rules = pre ++ post from rfl,
        evalLoop_skip_error p r hr]
  · exact evaluate_wellFormed _ _ _

/-- Witness for C6: appending a rule that always raises to the default rule
set does not change the decision on the hot scenario. -/
theorem evaluate_isolates_rule_fault_witness :
    RuleEngine.evaluate ⟨defaultRules 330 30 15 ++ brokenRule :: []⟩
        perceptsHot 0 =
      RuleEngine.evaluate ⟨defaultRules 330 30 15 ++ []⟩ perceptsHot 0 ∧
    wellFormed (RuleEngine.evaluate
      ⟨defaultRules 330 30 15 ++ brokenRule :: []⟩ perceptsHot 0) :=
  evaluate_isolates_rule_fault (defaultRules 330 30 15) [] brokenRule
    perceptsHot 0 rfl

/-- C7: with the default thresholds, the spec table's conditions fire the
default rules: thermal > 330, forest and humidity < 30 give risk CRITICAL
with `high_temperature_forest` triggered; asset_proximity < 5, thermal > 315
and landuse in {forest, grassland} fire the `asset_proximity` rule with its
MEDIUM-risk message. -/
theorem default_rules_table :
    (∀ (p : EnvironmentalPercepts) (now t h : ℚ),
        p.thermal = some t → t > 330 → p.landuse = some "forest" →
        p.humidity = some h → h < 30 →
        (defaultEngine.evaluate p now).risk_level = "CRITICAL" ∧
        "high_temperature_forest" ∈
          (defaultEngine.evaluate p now).triggered_rules) ∧
    (∀ (p : EnvironmentalPercepts) (now a t : ℚ) (l : String),
        p.asset_proximity = some a → a < 5 → p.thermal = some t → t > 315 →
        p.landuse = some l → (l = "forest" ∨ l = "grassland") →
        asset_proximity_rule p = .ok (some
          "🏘️ MEDIUM wildfire risk: Potential threat to nearby assets") ∧
        containsKw "MEDIUM"
          "🏘️ MEDIUM wildfire risk: Potential threat to nearby assets" = true ∧
        "asset_proximity" ∈ (defaultEngine.evaluate p now).triggered_rules) := by
  constructor
  · intro p now t h ht htt hl hh hhh
    have hpred : high_temperature_forest_rule 330 30 p = .ok (some
        "🔥 CRITICAL wildfire risk: High temperature in forest with low humidity") := by
      simp [high_temperature_forest_rule, pyGt, pyLt, ht, hl, hh,
        decide_eq_true htt, decide_eq_true hhh, bind, Except.bind, pure,
        Except.pure]
    have hmem : (⟨"high_temperature_forest",
        high_temperature_forest_rule 330 30⟩ : NamedRule) ∈
        defaultEngine.rules :=
      List.mem_cons_self _ _
    have hrisk : (evalLoop p defaultEngine.rules ([], [], "LOW")).2.2 =
        riskSpec (evalLoop p defaultEngine.rules ([], [], "LOW")).2.1 :=
      evalLoop_risk_eq p defaultEngine.rules [] []
    refine ⟨?_, ?_⟩
    · rw [evaluate_risk_level, hrisk]
      exact riskSpec_critical_of_mem _ _
        (evalLoop_fires_alert_mem p _ _ hpred (by decide)
          defaultEngine.rules [] [] "LOW" hmem)
        (by decide)
    · rw [evaluate_triggered]
      exact evalLoop_fires_name_mem p _ _ hpred (by decide)
        defaultEngine.rules [] [] "LOW" hmem
  · intro p now a t l ha haa ht htt hl hll
    have hpred : asset_proximity_rule p = .ok (some
        "🏘️ MEDIUM wildfire risk: Potential threat to nearby assets") := by
      rcases hll with rfl | rfl <;>
        simp [asset_proximity_rule, pyLt, pyGt, ha, ht, hl,
          decide_eq_true haa, decide_eq_true htt, bind, Except.bind, pure,
          Except.pure]
    have hmem : (⟨"asset_proximity", asset_proximity_rule⟩ : NamedRule) ∈
        defaultEngine.rules :=
      List.mem_cons_of_mem _ (List.mem_cons_of_mem _
        (List.mem_cons_of_mem _ (List.mem_cons_self _ _)))
    refine ⟨hpred, by decide, ?_⟩
    rw [evaluate_triggered]
    exact evalLoop_fires_name_mem p _ _ hpred (by decide)
      defaultEngine.rules [] [] "LOW" hmem

/-- Witness for C7 on the hot scenario percepts (thermal 340, forest,
humidity 10, asset distance 1). -/
theorem default_rules_table_witness :
    ((defaultEngine.evaluate perceptsHot 0).risk_level = "CRITICAL" ∧
      "high_temperature_forest" ∈
        (defaultEngine.evaluate perceptsHot 0).triggered_rules) ∧
    (asset_proximity_rule perceptsHot = .ok (some
        "🏘️ MEDIUM wildfire risk: Potential threat to nearby assets") ∧
      containsKw "MEDIUM"
        "🏘️ MEDIUM wildfire risk: Potential threat to nearby assets" = true ∧
      "asset_proximity" ∈
        (defaultEngine.evaluate perceptsHot 0).triggered_rules) :=
  ⟨default_rules_table.1 perceptsHot 0 340 10 rfl (by decide) rfl rfl
      (by decide),
   default_rules_table.2 perceptsHot 0 1 340 "forest" rfl (by decide) rfl
      (by decide) rfl (Or.inl rfl)⟩

/-- C8: a cycle whose percepts fail validation yields no decision and neither
`decide` nor `act` runs; a cycle whose percepts pass validation yields a
well-formed decision (the LOW / no-alert / 0-confidence outcome included). -/
theorem run_guardrail_gate (e : RuleEngine) (p : EnvironmentalPercepts)
    (now : ℚ) :
    (validate p = false → (runTrace e p now).1 = none ∧
      "decide" ∉ (runTrace e p now).2 ∧ "act" ∉ (runTrace e p now).2) ∧
    (validate p = true →
      ∃ d, (runTrace e p now).1 = some d ∧ wellFormed d) := by
  constructor
  · intro hv
    refine ⟨?_, ?_, ?_⟩ <;> simp [runTrace, hv]
  · intro hv
    exact ⟨e.evaluate p now, by simp [runTrace, hv], evaluate_wellFormed e p now⟩

/-- Witness for C8: the two-violation percepts abort the pipeline; the calm
percepts pass and produce a well-formed decision. -/
theorem run_guardrail_gate_witness :
    ((runTrace defaultEngine perceptsTwoViolations 0).1 = none ∧
      "decide" ∉ (runTrace defaultEngine perceptsTwoViolations 0).2 ∧
      "act" ∉ (runTrace defaultEngine perceptsTwoViolations 0).2) ∧
    (∃ d, (runTrace defaultEngine perceptsCalm 0).1 = some d ∧ wellFormed d) :=
  ⟨(run_guardrail_gate defaultEngine perceptsTwoViolations 0).1 (by decide),
   (run_guardrail_gate defaultEngine perceptsCalm 0).2 (by decide)⟩

/-- C3: Temporal Fusion replaces the baseline thermal reading with the
configured threshold exactly when a hotspot record exists, its confidence
exceeds 1/2 (= 0.5), its acquisition timestamp is present and parses, and its
age `now − acquisition` is at most the maximum age; in every other case the
baseline is used unchanged, and the fused value is always one of the two.
The hypothesis records that the parser rejects the empty string (as
`datetime.fromisoformat` does), which makes the present-and-parses condition
exact. -/
theorem fuseThermal_override_iff (parseIso : String → Option ℚ)
    (baseline : ℚ) (rec? : Option ThermalActivityRecord) (now maxAge tThr : ℚ)
    (hEmpty : parseIso "" = none) :
    ((∃ r s t, rec? = some r ∧ r.confidence > mkRat 1 2 ∧
        r.acquisition = some s ∧ parseIso s = some t ∧ now - t ≤ maxAge) →
      fuseThermal parseIso baseline rec? now maxAge tThr = tThr) ∧
    ((¬ ∃ r s t, rec? = some r ∧ r.confidence > mkRat 1 2 ∧
        r.acquisition = some s ∧ parseIso s = some t ∧ now - t ≤ maxAge) →
      fuseThermal parseIso baseline rec? now maxAge tThr = baseline) ∧
    (fuseThermal parseIso baseline rec? now maxAge tThr = baseline ∨
      fuseThermal parseIso baseline rec? now maxAge tThr = tThr) := by
  rcases rec? with _ | r
  · refine ⟨?_, fun _ => rfl, Or.inl rfl⟩
    rintro ⟨r, s, t, h, -⟩
    cases h
  · obtain ⟨conf, acq, hsd⟩ := r
    rcases acq with _ | s
    · refine ⟨?_, ?_, Or.inl ?_⟩
      · rintro ⟨r', s, t, hr', hc, hacq, -⟩
        cases hr'
        cases hacq
      · intro _
        simp [fuseThermal, acquisitionTruthy]
      · simp [fuseThermal, acquisitionTruthy]
    · by_cases hs : s = ""
      · subst hs
        refine ⟨?_, ?_, Or.inl ?_⟩
        · rintro ⟨r', s', t, hr', hc, hacq, hp, -⟩
          cases hr'
          cases hacq
          rw [hEmpty] at hp
          cases hp
        · intro _
          simp [fuseThermal, acquisitionTruthy]
        · simp [fuseThermal, acquisitionTruthy]
      · by_cases hc : conf > mkRat 1 2
        · cases hp : parseIso s with
          | none =>
            refine ⟨?_, ?_, Or.inl ?_⟩
            · rintro ⟨r', s', t, hr', hc', hacq, hp', -⟩
              cases hr'
              cases hacq
              rw [hp] at hp'
              cases hp'
            · intro _
              simp [fuseThermal, acquisitionTruthy, hs, hc, hp]
            · simp [fuseThermal, acquisitionTruthy, hs, hc, hp]
          | some t =>
            by_cases hfresh : now - t ≤ maxAge
            · refine ⟨?_, ?_, Or.inr ?_⟩
              · intro _
                simp [fuseThermal, acquisitionTruthy, hs, hc, hp, hfresh]
              · intro hn
                exact absurd
                  ⟨⟨conf, some s, hsd⟩, s, t, rfl, hc, rfl, hp, hfresh⟩ hn
              · simp [fuseThermal, acquisitionTruthy, hs, hc, hp, hfresh]
            · refine ⟨?_, ?_, Or.inl ?_⟩
              · rintro ⟨r', s', t', hr', hc', hacq', hp', hf'⟩
                cases hr'
                cases hacq'
                rw [hp] at hp'
                cases hp'
                exact absurd hf' hfresh
              · intro _
                simp [fuseThermal, acquisitionTruthy, hs, hc, hp, hfresh]
              · simp [fuseThermal, acquisitionTruthy, hs, hc, hp, hfresh]
        · refine ⟨?_, ?_, Or.inl ?_⟩
          · rintro ⟨r', s', t, hr', hc', -⟩
            cases hr'
            exact absurd hc' hc
          · intro _
            simp [fuseThermal, acquisitionTruthy, hc]
          · simp [fuseThermal, acquisitionTruthy, hc]

/-- Witness for C3: a confident (0.8), two-hour-old detection within the
six-hour window overrides a 290 K baseline to the 330 K threshold. -/
theorem fuseThermal_override_iff_witness :
    fuseThermal parseIsoSample 290 (some hotspotFresh) 3 6 330 = 330 :=
  (fuseThermal_override_iff parseIsoSample 290 (some hotspotFresh) 3 6 330
      rfl).1
    ⟨hotspotFresh, "2024-01-01T01:00:00+00:00", 1, rfl, by decide, rfl, rfl,
      by norm_num⟩

/-- C1 counterexample: a percept set violating both the thermal check
(500 > 400) and the humidity check (−5 < 0) is rejected, but only the first
violated check is logged — the humidity violation is absent from the log, so
the claim that every violated check is logged individually fails. -/
theorem validate_hides_second_violation :
    perceptsTwoViolations.thermal = some 500 ∧
    perceptsTwoViolations.humidity = some (-5) ∧
    (validateLog perceptsTwoViolations).1 = false ∧
    (validateLog perceptsTwoViolations).2 =
      ["Unrealistic thermal temperature"] ∧
    "Invalid humidity" ∉ (validateLog perceptsTwoViolations).2 := by
  refine ⟨rfl, rfl, rfl, rfl, ?_⟩
  decide

/-- C1 (amended): `validate` returns false exactly when some presence or
range check fails — a single failing check suffices — but the checks
short-circuit: the method returns at the first violated check and logs only
that one. -/
theorem validate_short_circuits (p : EnvironmentalPercepts) :
    (validate p = false ↔ ¬ checksPass p) ∧
    (validate p = false → (validateLog p).2.length = 1) := by
  constructor
  · rw [← validate_true_iff]
    cases h : validate p <;> simp
  · exact validateLog_single p

/-- Witness for C1's amended theorem at the two-violation percepts. -/
theorem validate_short_circuits_witness :
    (validate perceptsTwoViolations = false ↔
      ¬ checksPass perceptsTwoViolations) ∧
    (validateLog perceptsTwoViolations).2.length = 1 :=
  ⟨(validate_short_circuits perceptsTwoViolations).1,
   (validate_short_circuits perceptsTwoViolations).2 (by decide)⟩

/-- C4 counterexample: percepts whose `timestamp` is `None` but whose other
fields are valid still pass validation — `validate` never checks the
timestamp for presence, contradicting the claim that an absent timestamp is
rejected. -/
theorem validate_ignores_missing_timestamp :
    perceptsNoTimestamp.timestamp = none ∧
    validate perceptsNoTimestamp = true := by
  refine ⟨rfl, ?_⟩
  decide

/-- C4 (amended): if any of the eight checked fields (thermal, humidity,
wind_speed, landuse, vegetation_density, asset_proximity, latitude,
longitude — not timestamp) is absent, `validate` returns false and no
decision is computed on such percepts. -/
theorem validate_rejects_missing_fields (p : EnvironmentalPercepts)
    (h : p.thermal = none ∨ p.humidity = none ∨ p.wind_speed = none ∨
      p.landuse = none ∨ p.vegetation_density = none ∨
      p.asset_proximity = none ∨ p.latitude = none ∨ p.longitude = none) :
    validate p = false := by
  cases hv : validate p
  · rfl
  · exfalso
    have hc := (validate_true_iff p).mp hv
    simp only [checksPass, inRange] at hc
    obtain ⟨⟨t', ht', -, -⟩, ⟨hu', hhu', -, -⟩, ⟨w', hw', -, -⟩,
      ⟨v', hv', -, -⟩, ⟨a', ha', -⟩, ⟨la', hla', -, -⟩, ⟨lo', hlo', -, -⟩,
      hland⟩ := hc
    rcases h with h | h | h | h | h | h | h | h
    · rw [h] at ht'; cases ht'
    · rw [h] at hhu'; cases hhu'
    · rw [h] at hw'; cases hw'
    · rcases hland with hl | hl | hl <;> (rw [h] at hl; cases hl)
    · rw [h] at hv'; cases hv'
    · rw [h] at ha'; cases ha'
    · rw [h] at hla'; cases hla'
    · rw [h] at hlo'; cases hlo'

/-- Witness for C4's amended theorem: a missing thermal reading is rejected. -/
theorem validate_rejects_missing_fields_witness :
    validate perceptsMissingThermal = false :=
  validate_rejects_missing_fields perceptsMissingThermal (Or.inl rfl)

end Wildfire
